import Mathlib

/-!
Shallow embedding of the chronomatrix per-clock animation engine
(`src/analog_clock.rs`) and the digit pattern table
(`src/digit_patterns.rs`).

Modelling conventions:
* Rust `f64` values are modelled as `ℚ`.  Every operation the verified
  claims exercise (casts from `i32`, `%`, `+`, `-`, `*`, comparison, and
  division by a nonzero integer) is exact on the values that actually
  occur, so the rational model is faithful.
* Rust `%` on `f64` (`fmod`) is remainder after truncated division; it is
  modelled by `rustMod` below.
* `std::time::Instant` is modelled as a millisecond timestamp `ℕ`;
  `start.elapsed().as_millis()` at time `now` is `now - start` (natural
  subtraction, matching that an `Instant`'s elapsed time is never
  negative).
* The interior-mutable widget state (`imp::AnalogClock`) becomes the
  record `ClockState`; each Rust method becomes a pure function from the
  old state (plus the current time, where the Rust code reads the clock)
  to the new state.
-/

/-- Truncation of a rational toward zero, the rounding used by Rust's
`f64` remainder operator. -/
def ratTrunc (q : ℚ) : ℤ :=
  if 0 ≤ q then ⌊q⌋ else -⌊-q⌋

/-- Rust's `a % b` on `f64`: the remainder after division truncated toward
zero, so the result carries the sign of `a` (e.g. `-10.0 % 360.0 = -10.0`). -/
def rustMod (a b : ℚ) : ℚ :=
  a - b * (ratTrunc (a / b) : ℚ)

/-- Colour scheme of one clock, four RGBA quadruples
(`ClockColors` in `src/analog_clock.rs`). -/
structure ClockColors where
  active_color : ℚ × ℚ × ℚ × ℚ
  inactive_color : ℚ × ℚ × ℚ × ℚ
  bg_color : ℚ × ℚ × ℚ × ℚ
  border_color : ℚ × ℚ × ℚ × ℚ
deriving DecidableEq

/-- Per-clock widget state (`imp::AnalogClock` in `src/analog_clock.rs`).
`animation_start_time` holds the start timestamp in milliseconds;
`None` means no animation is in flight. -/
structure ClockState where
  hour_angle : ℚ
  minute_angle : ℚ
  cumulative_hour_angle : ℚ
  cumulative_minute_angle : ℚ
  target_cumulative_hour : ℚ
  target_cumulative_minute : ℚ
  last_hour_angle : Option ℚ
  last_minute_angle : Option ℚ
  colors : ClockColors
  is_active : Bool
  target_is_active : Bool
  animation_duration_ms : ℕ
  animation_start_time : Option ℕ
  start_cumulative_hour : ℚ
  start_cumulative_minute : ℚ
deriving DecidableEq

/-- Default colour scheme from `impl Default for AnalogClock` (the `f64`
literals `0.42`, `0.15`, `0.03`, `0.1` are written as the decimal fractions
they denote; their exact values never enter any claim). -/
def defaultColors : ClockColors :=
  { active_color := (1, 42/100, 42/100, 1)
    inactive_color := (1, 42/100, 42/100, 15/100)
    bg_color := (1, 1, 1, 3/100)
    border_color := (1, 1, 1, 1/10) }

/-- State of a freshly constructed clock: the `Default` impl followed by
`AnalogClock::new` overwriting `animation_duration_ms`. -/
def freshClock (duration : ℕ) : ClockState :=
  { hour_angle := 0
    minute_angle := 0
    cumulative_hour_angle := 0
    cumulative_minute_angle := 0
    target_cumulative_hour := 0
    target_cumulative_minute := 0
    last_hour_angle := none
    last_minute_angle := none
    colors := defaultColors
    is_active := true
    target_is_active := true
    animation_duration_ms := duration
    animation_start_time := none
    start_cumulative_hour := 0
    start_cumulative_minute := 0 }

/-- Core of `AnalogClock::calculate_target_cumulative` for one hand:
given the stored last raw angle and the current cumulative angle, returns
the new cumulative target together with the updated last-angle cell. -/
def calculate_target_cumulative (last_angle : Option ℚ) (current_cumulative : ℚ)
    (new_angle : ℚ) : ℚ × Option ℚ :=
  match last_angle with
  | some last =>
      let normalized_last := rustMod last 360
      let normalized_new := rustMod new_angle 360
      let d := normalized_new - normalized_last
      let diff := if d < 0 then d + 360 else d
      (current_cumulative + diff, some normalized_new)
  | none => (new_angle, some new_angle)

/-- Inactive clock position, hour hand (`INACTIVE_HOUR_ANGLE`). -/
def INACTIVE_HOUR_ANGLE : ℤ := 135

/-- Inactive clock position, minute hand (`INACTIVE_MINUTE_ANGLE`). -/
def INACTIVE_MINUTE_ANGLE : ℤ := 315

/-- Alternative inactive position, hour hand (`ALT_INACTIVE_HOUR_ANGLE`). -/
def ALT_INACTIVE_HOUR_ANGLE : ℤ := 225

/-- Alternative inactive position, minute hand (`ALT_INACTIVE_MINUTE_ANGLE`). -/
def ALT_INACTIVE_MINUTE_ANGLE : ℤ := 225

/-- `AnalogClock::set_angles(hour, minute)` called at time `now`
(the Rust code records `Instant::now()` there). -/
def set_angles (s : ClockState) (hour minute : ℤ) (now : ℕ) : ClockState :=
  let th := calculate_target_cumulative s.last_hour_angle s.cumulative_hour_angle (hour : ℚ)
  let tm := calculate_target_cumulative s.last_minute_angle s.cumulative_minute_angle (minute : ℚ)
  let target_active :=
    !(hour == INACTIVE_HOUR_ANGLE && minute == INACTIVE_MINUTE_ANGLE
      || hour == ALT_INACTIVE_HOUR_ANGLE && minute == ALT_INACTIVE_MINUTE_ANGLE)
  { s with
    start_cumulative_hour := s.cumulative_hour_angle
    start_cumulative_minute := s.cumulative_minute_angle
    target_cumulative_hour := th.1
    target_cumulative_minute := tm.1
    last_hour_angle := th.2
    last_minute_angle := tm.2
    animation_start_time := some now
    hour_angle := (hour : ℚ)
    minute_angle := (minute : ℚ)
    target_is_active := target_active }

/-- `AnalogClock::set_angles_immediate(hour, minute)`. -/
def set_angles_immediate (s : ClockState) (hour minute : ℤ) : ClockState :=
  let active :=
    !(hour == INACTIVE_HOUR_ANGLE && minute == INACTIVE_MINUTE_ANGLE
      || hour == ALT_INACTIVE_HOUR_ANGLE && minute == ALT_INACTIVE_MINUTE_ANGLE)
  { s with
    hour_angle := (hour : ℚ)
    minute_angle := (minute : ℚ)
    cumulative_hour_angle := (hour : ℚ)
    cumulative_minute_angle := (minute : ℚ)
    target_cumulative_hour := (hour : ℚ)
    target_cumulative_minute := (minute : ℚ)
    last_hour_angle := some (hour : ℚ)
    last_minute_angle := some (minute : ℚ)
    animation_start_time := none
    is_active := active
    target_is_active := active }

/-- Quadratic ease-in-out curve (`AnalogClock::ease_in_out`). -/
def ease_in_out (t : ℚ) : ℚ :=
  if t < 1/2 then 2 * t * t else -1 + (4 - 2 * t) * t

/-- `AnalogClock::update_animation` evaluated at time `now`
(one tick of the 60 FPS animation loop). -/
def update_animation (s : ClockState) (now : ℕ) : ClockState :=
  match s.animation_start_time with
  | none => s
  | some start_time =>
      let elapsed : ℚ := ((now - start_time : ℕ) : ℚ)
      let duration : ℚ := (s.animation_duration_ms : ℚ)
      if elapsed < duration then
        let progress := elapsed / duration
        let eased_progress := ease_in_out progress
        { s with
          cumulative_hour_angle :=
            s.start_cumulative_hour
              + (s.target_cumulative_hour - s.start_cumulative_hour) * eased_progress
          cumulative_minute_angle :=
            s.start_cumulative_minute
              + (s.target_cumulative_minute - s.start_cumulative_minute) * eased_progress }
      else
        { s with
          cumulative_hour_angle := s.target_cumulative_hour
          cumulative_minute_angle := s.target_cumulative_minute
          is_active := s.target_is_active
          animation_start_time := none }

/-- Folds a list of `set_angles` calls (each a raw hour angle, raw minute
angle, and call timestamp) over a clock state. -/
def setSeq (s : ClockState) : List (ℤ × ℤ × ℕ) → ClockState
  | [] => s
  | c :: cs => setSeq (set_angles s c.1 c.2.1 c.2.2) cs

/-- Linear interpolation `from + (to - from) * e` as written in `draw`. -/
def lerp (a b e : ℚ) : ℚ := a + (b - a) * e

/-- Channelwise linear interpolation of two RGBA quadruples, as written in
the hand-colour computation of `AnalogClock::draw`. -/
def lerp4 (a b : ℚ × ℚ × ℚ × ℚ) (e : ℚ) : ℚ × ℚ × ℚ × ℚ :=
  (lerp a.1 b.1 e, lerp a.2.1 b.2.1 e, lerp a.2.2.1 b.2.2.1 e, lerp a.2.2.2 b.2.2.2 e)

/-- The clamped progress `(elapsed / duration).min(1.0)` from
`AnalogClock::draw`.  When `duration = 0`, IEEE `f64` division of the
nonnegative `elapsed` by `+0.0` yields `+∞` (or NaN for `0/0`) and Rust's
`f64::min` then returns the other operand `1.0`, so the clamped progress
is `1` in that case. -/
def clampedProgress (elapsed duration : ℚ) : ℚ :=
  if duration = 0 then 1 else min (elapsed / duration) 1

/-- Center dot opacity when the clock is active (`CENTER_DOT_OPACITY_ACTIVE`). -/
def CENTER_DOT_OPACITY_ACTIVE : ℚ := 1/2

/-- Center dot opacity when the clock is inactive (`CENTER_DOT_OPACITY_INACTIVE`). -/
def CENTER_DOT_OPACITY_INACTIVE : ℚ := 1

/-- Hand colour computed by `AnalogClock::draw` at time `now` (the colour
interpolation block of `draw`; the Cairo stroking around it is pure
rendering). -/
def hand_color (s : ClockState) (now : ℕ) : ℚ × ℚ × ℚ × ℚ :=
  match s.animation_start_time with
  | some start_time =>
      let elapsed : ℚ := ((now - start_time : ℕ) : ℚ)
      let duration : ℚ := (s.animation_duration_ms : ℚ)
      if s.is_active ≠ s.target_is_active then
        let progress := clampedProgress elapsed duration
        let eased_progress := ease_in_out progress
        let fromTo :=
          if s.target_is_active then (s.colors.inactive_color, s.colors.active_color)
          else (s.colors.active_color, s.colors.inactive_color)
        lerp4 fromTo.1 fromTo.2 eased_progress
      else if s.is_active then s.colors.active_color else s.colors.inactive_color
  | none => if s.is_active then s.colors.active_color else s.colors.inactive_color

/-- Center-dot opacity computed by `AnalogClock::draw` at time `now`. -/
def center_opacity (s : ClockState) (now : ℕ) : ℚ :=
  match s.animation_start_time with
  | some start_time =>
      let elapsed : ℚ := ((now - start_time : ℕ) : ℚ)
      let duration : ℚ := (s.animation_duration_ms : ℚ)
      if s.is_active ≠ s.target_is_active then
        let progress := clampedProgress elapsed duration
        let eased_progress := ease_in_out progress
        let fromTo :=
          if s.target_is_active then (CENTER_DOT_OPACITY_INACTIVE, CENTER_DOT_OPACITY_ACTIVE)
          else (CENTER_DOT_OPACITY_ACTIVE, CENTER_DOT_OPACITY_INACTIVE)
        lerp fromTo.1 fromTo.2 eased_progress
      else if s.is_active then CENTER_DOT_OPACITY_ACTIVE else CENTER_DOT_OPACITY_INACTIVE
  | none => if s.is_active then CENTER_DOT_OPACITY_ACTIVE else CENTER_DOT_OPACITY_INACTIVE

/-- Hand positions of a single clock (`ClockPosition` in
`src/digit_patterns.rs`); angles are `i32` degrees. -/
structure ClockPosition where
  hour : ℤ
  minute : ℤ
deriving DecidableEq

/-- The inactive (rest) clock position `ClockPosition::INACTIVE`. -/
def ClockPosition.INACTIVE : ClockPosition := ⟨135, 315⟩

/-- A digit pattern: 6 rows of 4 clock positions (`DigitPattern`). -/
abbrev DigitPattern := List (List ClockPosition)

/-- Shorthand `X` for the inactive position, as in the source table. -/
def X : ClockPosition := ClockPosition.INACTIVE

/-- Pattern for digit 0 (`DIGIT_0`). -/
def DIGIT_0 : DigitPattern :=
  [[⟨90, 180⟩, ⟨90, 270⟩, ⟨90, 270⟩, ⟨180, 270⟩],
   [⟨0, 180⟩, ⟨90, 180⟩, ⟨180, 270⟩, ⟨0, 180⟩],
   [⟨0, 180⟩, ⟨0, 180⟩, ⟨0, 180⟩, ⟨0, 180⟩],
   [⟨0, 180⟩, ⟨0, 180⟩, ⟨0, 180⟩, ⟨0, 180⟩],
   [⟨0, 180⟩, ⟨0, 90⟩, ⟨0, 270⟩, ⟨0, 180⟩],
   [⟨0, 90⟩, ⟨90, 270⟩, ⟨90, 270⟩, ⟨0, 270⟩]]

/-- Pattern for digit 1 (`DIGIT_1`). -/
def DIGIT_1 : DigitPattern :=
  [[⟨90, 180⟩, ⟨90, 270⟩, ⟨270, 180⟩, X],
   [⟨0, 90⟩, ⟨270, 180⟩, ⟨0, 180⟩, X],
   [X, ⟨0, 180⟩, ⟨0, 180⟩, X],
   [X, ⟨0, 180⟩, ⟨0, 180⟩, X],
   [⟨90, 180⟩, ⟨270, 0⟩, ⟨0, 90⟩, ⟨270, 180⟩],
   [⟨0, 90⟩, ⟨90, 270⟩, ⟨90, 270⟩, ⟨0, 270⟩]]

/-- Pattern for digit 2 (`DIGIT_2`). -/
def DIGIT_2 : DigitPattern :=
  [[⟨90, 180⟩, ⟨90, 270⟩, ⟨90, 270⟩, ⟨180, 270⟩],
   [⟨0, 90⟩, ⟨90, 270⟩, ⟨180, 270⟩, ⟨0, 180⟩],
   [⟨90, 180⟩, ⟨90, 270⟩, ⟨0, 270⟩, ⟨0, 180⟩],
   [⟨0, 180⟩, ⟨90, 180⟩, ⟨90, 270⟩, ⟨0, 270⟩],
   [⟨0, 180⟩, ⟨0, 90⟩, ⟨90, 270⟩, ⟨180, 270⟩],
   [⟨0, 90⟩, ⟨90, 270⟩, ⟨90, 270⟩, ⟨0, 270⟩]]

/-- Pattern for digit 3 (`DIGIT_3`). -/
def DIGIT_3 : DigitPattern :=
  [[⟨90, 180⟩, ⟨90, 270⟩, ⟨90, 270⟩, ⟨180, 270⟩],
   [⟨0, 90⟩, ⟨90, 270⟩, ⟨180, 270⟩, ⟨0, 180⟩],
   [X, ⟨90, 180⟩, ⟨0, 270⟩, ⟨0, 180⟩],
   [X, ⟨0, 90⟩, ⟨180, 270⟩, ⟨0, 180⟩],
   [⟨90, 180⟩, ⟨90, 270⟩, ⟨0, 270⟩, ⟨0, 180⟩],
   [⟨0, 90⟩, ⟨90, 270⟩, ⟨90, 270⟩, ⟨0, 270⟩]]

/-- Pattern for digit 4 (`DIGIT_4`). -/
def DIGIT_4 : DigitPattern :=
  [[⟨90, 180⟩, ⟨180, 270⟩, ⟨180, 90⟩, ⟨180, 270⟩],
   [⟨0, 180⟩, ⟨0, 180⟩, ⟨0, 180⟩, ⟨0, 180⟩],
   [⟨0, 180⟩, ⟨0, 90⟩, ⟨0, 270⟩, ⟨0, 180⟩],
   [⟨0, 90⟩, ⟨90, 270⟩, ⟨180, 270⟩, ⟨0, 180⟩],
   [X, X, ⟨0, 180⟩, ⟨0, 180⟩],
   [X, X, ⟨0, 90⟩, ⟨0, 270⟩]]

/-- Pattern for digit 5 (`DIGIT_5`). -/
def DIGIT_5 : DigitPattern :=
  [[⟨180, 90⟩, ⟨270, 90⟩, ⟨270, 90⟩, ⟨270, 180⟩],
   [⟨0, 180⟩, ⟨180, 90⟩, ⟨270, 90⟩, ⟨0, 270⟩],
   [⟨0, 180⟩, ⟨0, 90⟩, ⟨270, 90⟩, ⟨270, 180⟩],
   [⟨0, 90⟩, ⟨270, 90⟩, ⟨270, 180⟩, ⟨0, 180⟩],
   [⟨180, 90⟩, ⟨270, 90⟩, ⟨0, 270⟩, ⟨0, 180⟩],
   [⟨0, 90⟩, ⟨270, 90⟩, ⟨270, 90⟩, ⟨0, 270⟩]]

/-- Pattern for digit 6 (`DIGIT_6`). -/
def DIGIT_6 : DigitPattern :=
  [[⟨180, 90⟩, ⟨180, 270⟩, X, X],
   [⟨180, 0⟩, ⟨180, 0⟩, X, X],
   [⟨180, 0⟩, ⟨0, 90⟩, ⟨270, 90⟩, ⟨180, 270⟩],
   [⟨180, 0⟩, ⟨180, 90⟩, ⟨180, 270⟩, ⟨180, 0⟩],
   [⟨180, 0⟩, ⟨0, 90⟩, ⟨270, 0⟩, ⟨180, 0⟩],
   [⟨0, 90⟩, ⟨270, 90⟩, ⟨270, 90⟩, ⟨270, 0⟩]]

/-- Pattern for digit 7 (`DIGIT_7`). -/
def DIGIT_7 : DigitPattern :=
  [[⟨90, 180⟩, ⟨90, 270⟩, ⟨90, 270⟩, ⟨180, 270⟩],
   [⟨0, 90⟩, ⟨90, 270⟩, ⟨180, 270⟩, ⟨0, 180⟩],
   [X, X, ⟨0, 180⟩, ⟨0, 180⟩],
   [X, X, ⟨0, 180⟩, ⟨0, 180⟩],
   [X, X, ⟨0, 180⟩, ⟨0, 180⟩],
   [X, X, ⟨0, 90⟩, ⟨0, 270⟩]]

/-- Pattern for digit 8 (`DIGIT_8`). -/
def DIGIT_8 : DigitPattern :=
  [[⟨90, 180⟩, ⟨90, 270⟩, ⟨90, 270⟩, ⟨180, 270⟩],
   [⟨0, 180⟩, ⟨90, 180⟩, ⟨180, 270⟩, ⟨0, 180⟩],
   [⟨0, 180⟩, ⟨0, 90⟩, ⟨0, 270⟩, ⟨0, 180⟩],
   [⟨0, 180⟩, ⟨90, 180⟩, ⟨180, 270⟩, ⟨0, 180⟩],
   [⟨0, 180⟩, ⟨0, 90⟩, ⟨0, 270⟩, ⟨0, 180⟩],
   [⟨0, 90⟩, ⟨90, 270⟩, ⟨90, 270⟩, ⟨0, 270⟩]]

/-- Pattern for digit 9 (`DIGIT_9`). -/
def DIGIT_9 : DigitPattern :=
  [[⟨90, 180⟩, ⟨90, 270⟩, ⟨90, 270⟩, ⟨180, 270⟩],
   [⟨0, 180⟩, ⟨90, 180⟩, ⟨180, 270⟩, ⟨0, 180⟩],
   [⟨0, 180⟩, ⟨0, 90⟩, ⟨0, 270⟩, ⟨0, 180⟩],
   [⟨0, 90⟩, ⟨90, 270⟩, ⟨180, 270⟩, ⟨0, 180⟩],
   [X, X, ⟨0, 180⟩, ⟨0, 180⟩],
   [X, X, ⟨0, 90⟩, ⟨0, 270⟩]]

/-- Pattern lookup `get_digit_pattern`; the `u8` argument is modelled as
`ℕ` (the match arms 0–9 and the wildcard behave identically on and beyond
the `u8` range). -/
def get_digit_pattern (digit : ℕ) : DigitPattern :=
  match digit with
  | 0 => DIGIT_0
  | 1 => DIGIT_1
  | 2 => DIGIT_2
  | 3 => DIGIT_3
  | 4 => DIGIT_4
  | 5 => DIGIT_5
  | 6 => DIGIT_6
  | 7 => DIGIT_7
  | 8 => DIGIT_8
  | 9 => DIGIT_9
  | _ => DIGIT_0

/-- Well-formedness of a digit pattern: 6 rows, 4 columns each, and every
hour and minute angle in the interval [0, 360). -/
def patternOK (p : DigitPattern) : Prop :=
  p.length = 6 ∧ ∀ r ∈ p, r.length = 4 ∧
    ∀ c ∈ r, 0 ≤ c.hour ∧ c.hour < 360 ∧ 0 ≤ c.minute ∧ c.minute < 360

instance (p : DigitPattern) : Decidable (patternOK p) := by
  unfold patternOK
  infer_instance

/-! ### Helper lemmas -/

/-- For a nonnegative dividend, Rust's `f64` remainder by 360 lands in
[0, 360). -/
lemma rustMod_nonneg_lt (a : ℚ) (ha : 0 ≤ a) :
    0 ≤ rustMod a 360 ∧ rustMod a 360 < 360 := by
  have h360 : (0 : ℚ) < 360 := by norm_num
  have hq : 0 ≤ a / 360 := div_nonneg ha h360.le
  have h1 : ((⌊a / 360⌋ : ℤ) : ℚ) * 360 ≤ a := by
    rw [← le_div_iff₀ h360]; exact Int.floor_le _
  have h2 : a < (((⌊a / 360⌋ : ℤ) : ℚ) + 1) * 360 := by
    rw [← div_lt_iff₀ h360]; exact Int.lt_floor_add_one _
  unfold rustMod ratTrunc
  rw [if_pos hq]
  constructor <;> linarith

/-- The wrap-to-forward step of `calculate_target_cumulative`: when both
normalized angles lie in [0, 360), the chosen clockwise delta lies in
[0, 360) as well, and the stored normalized angle is nonnegative. -/
lemma calc_delta_mem (last cum newA : ℚ) (hl : 0 ≤ last) (hn : 0 ≤ newA) :
    (0 ≤ (calculate_target_cumulative (some last) cum newA).1 - cum ∧
      (calculate_target_cumulative (some last) cum newA).1 - cum < 360) ∧
    ∀ x, (calculate_target_cumulative (some last) cum newA).2 = some x → 0 ≤ x := by
  obtain ⟨hl0, hl1⟩ := rustMod_nonneg_lt last hl
  obtain ⟨hn0, hn1⟩ := rustMod_nonneg_lt newA hn
  by_cases hd : rustMod newA 360 - rustMod last 360 < 0 <;>
    simp only [calculate_target_cumulative, hd, if_true, if_false, reduceIte,
      Option.some.injEq] <;>
  · refine ⟨⟨by linarith, by linarith⟩, ?_⟩
    rintro x rfl
    exact hn0

/-- One `set_angles` call never touches the two cumulative angle cells. -/
lemma set_angles_cumulative_eq (s : ClockState) (hour minute : ℤ) (now : ℕ) :
    (set_angles s hour minute now).cumulative_hour_angle = s.cumulative_hour_angle ∧
    (set_angles s hour minute now).cumulative_minute_angle = s.cumulative_minute_angle :=
  ⟨rfl, rfl⟩

/-- A whole sequence of `set_angles` calls never touches the two
cumulative angle cells. -/
lemma setSeq_cumulative_eq (L : List (ℤ × ℤ × ℕ)) (s : ClockState) :
    (setSeq s L).cumulative_hour_angle = s.cumulative_hour_angle ∧
    (setSeq s L).cumulative_minute_angle = s.cumulative_minute_angle := by
  induction L generalizing s with
  | nil => exact ⟨rfl, rfl⟩
  | cons c cs ih =>
      have h := ih (set_angles s c.1 c.2.1 c.2.2)
      exact ⟨h.1, h.2⟩

/-! ### C1 — monotonic rotation under `set_angles` -/

/-- C1 (counterexample): from a fresh clock, `set_angles` with raw hour
350 followed (with no animation frame in between) by raw hour 10 drops
the stored cumulative hour target from 350 to 20, and a second-call raw
hour of -350 yields target -340, a step of -690; so the targets computed
by `calculate_target_cumulative` are not non-decreasing and a call's
increase of the cumulative target can lie outside [0, 360). -/
theorem set_angles_monotonic_counterexample :
    (set_angles (freshClock 300) 350 0 0).target_cumulative_hour = 350 ∧
    (set_angles (set_angles (freshClock 300) 350 0 0) 10 0 0).target_cumulative_hour = 20 ∧
    (set_angles (set_angles (freshClock 300) 350 0 0) 10 0 0).target_cumulative_hour
      < (set_angles (freshClock 300) 350 0 0).target_cumulative_hour ∧
    (set_angles (set_angles (freshClock 300) 350 0 0) (-350) 0 0).target_cumulative_hour = -340 ∧
    (set_angles (set_angles (freshClock 300) 350 0 0) (-350) 0 0).target_cumulative_hour
      - (set_angles (freshClock 300) 350 0 0).target_cumulative_hour < 0 := by
  norm_num [set_angles, calculate_target_cumulative, freshClock, rustMod, ratTrunc]

/-- C1 (amended): `set_angles` never changes `cumulative_hour_angle` or
`cumulative_minute_angle` (so those cells are non-decreasing across any
sequence of calls), and — provided every raw angle passed is
nonnegative — each non-first call writes a cumulative target equal to the
current cumulative angle plus a delta in [0, 360), while a first call
writes the raw angle itself.  (The stored targets themselves may decrease
between calls, and negative raw angles escape the [0, 360) delta range,
as the counterexample shows.) -/
theorem set_angles_monotonic_amended (s : ClockState) (hour minute : ℤ) (now : ℕ)
    (hlh : ∀ x, s.last_hour_angle = some x → 0 ≤ x)
    (hlm : ∀ x, s.last_minute_angle = some x → 0 ≤ x)
    (hh : 0 ≤ hour) (hm : 0 ≤ minute) :
    (∀ L : List (ℤ × ℤ × ℕ),
        (setSeq s L).cumulative_hour_angle = s.cumulative_hour_angle ∧
        (setSeq s L).cumulative_minute_angle = s.cumulative_minute_angle) ∧
    (∀ x, (set_angles s hour minute now).last_hour_angle = some x → 0 ≤ x) ∧
    (∀ x, (set_angles s hour minute now).last_minute_angle = some x → 0 ≤ x) ∧
    (s.last_hour_angle ≠ none →
        0 ≤ (set_angles s hour minute now).target_cumulative_hour - s.cumulative_hour_angle ∧
        (set_angles s hour minute now).target_cumulative_hour - s.cumulative_hour_angle < 360) ∧
    (s.last_minute_angle ≠ none →
        0 ≤ (set_angles s hour minute now).target_cumulative_minute - s.cumulative_minute_angle ∧
        (set_angles s hour minute now).target_cumulative_minute
          - s.cumulative_minute_angle < 360) ∧
    (s.last_hour_angle = none →
        (set_angles s hour minute now).target_cumulative_hour = (hour : ℚ)) ∧
    (s.last_minute_angle = none →
        (set_angles s hour minute now).target_cumulative_minute = (minute : ℚ)) := by
  have hh' : (0 : ℚ) ≤ (hour : ℚ) := by exact_mod_cast hh
  have hm' : (0 : ℚ) ≤ (minute : ℚ) := by exact_mod_cast hm
  refine ⟨fun L => setSeq_cumulative_eq L s, ?_, ?_, ?_, ?_, ?_, ?_⟩
  · intro x hx
    rcases h : s.last_hour_angle with _ | l
    · simp only [set_angles, h, calculate_target_cumulative] at hx
      rcases hx with ⟨rfl⟩
      exact hh'
    · have hl : 0 ≤ l := hlh l h
      have := (calc_delta_mem l s.cumulative_hour_angle (hour : ℚ) hl hh').2
      simp only [set_angles, h] at hx
      exact this x hx
  · intro x hx
    rcases h : s.last_minute_angle with _ | l
    · simp only [set_angles, h, calculate_target_cumulative] at hx
      rcases hx with ⟨rfl⟩
      exact hm'
    · have hl : 0 ≤ l := hlm l h
      have := (calc_delta_mem l s.cumulative_minute_angle (minute : ℚ) hl hm').2
      simp only [set_angles, h] at hx
      exact this x hx
  · intro hne
    rcases h : s.last_hour_angle with _ | l
    · exact absurd h hne
    · have hl : 0 ≤ l := hlh l h
      have := (calc_delta_mem l s.cumulative_hour_angle (hour : ℚ) hl hh').1
      simpa only [set_angles, h] using this
  · intro hne
    rcases h : s.last_minute_angle with _ | l
    · exact absurd h hne
    · have hl : 0 ≤ l := hlm l h
      have := (calc_delta_mem l s.cumulative_minute_angle (minute : ℚ) hl hm').1
      simpa only [set_angles, h] using this
  · intro h
    simp only [set_angles, h, calculate_target_cumulative]
  · intro h
    simp only [set_angles, h, calculate_target_cumulative]

/-- C1 (witness): the amended theorem applied to a concrete second call
(raw hour 10 after raw hour 350, from a state whose stored last angles
are nonnegative). -/
theorem set_angles_monotonic_amended_witness :
    0 ≤ (set_angles (set_angles (freshClock 300) 350 20 0) 10 40 16).target_cumulative_hour
        - (set_angles (freshClock 300) 350 20 0).cumulative_hour_angle ∧
    (set_angles (set_angles (freshClock 300) 350 20 0) 10 40 16).target_cumulative_hour
        - (set_angles (freshClock 300) 350 20 0).cumulative_hour_angle < 360 :=
  (set_angles_monotonic_amended (set_angles (freshClock 300) 350 20 0) 10 40 16
      (fun x hx => by
        simp only [set_angles, freshClock, calculate_target_cumulative,
          Option.some.injEq] at hx
        subst hx; norm_num)
      (fun x hx => by
        simp only [set_angles, freshClock, calculate_target_cumulative,
          Option.some.injEq] at hx
        subst hx; norm_num)
      (by norm_num) (by norm_num)).2.2.2.1
    (by simp [set_angles, freshClock, calculate_target_cumulative])

/-! ### C2 — rapid successive `set_angles` calls on a fresh clock -/

/-- C2 (counterexample): from a fresh clock, after `set_angles(350, 10)`
followed immediately (no animation frame ran, so `cumulative_hour_angle`
is still 0) by `set_angles(10, 20)`, the stored hour target is
`0 + 20 = 20`, not 370: the code adds the clockwise delta to the current
cumulative angle, not to the previous target. -/
theorem second_call_target_counterexample :
    (set_angles (set_angles (freshClock 300) 350 10 0) 10 20 0).target_cumulative_hour = 20 ∧
    (set_angles (set_angles (freshClock 300) 350 10 0) 10 20 0).target_cumulative_hour ≠ 370 := by
  norm_num [set_angles, calculate_target_cumulative, freshClock, rustMod, ratTrunc]

/-- C2 (amended): on a fresh clock, `set_angles(350, 10)` stores hour
target 350; an immediate `set_angles(10, 20)` (before any animation
frame) computes delta 20 from raw 350° to raw 10° and adds it to the
still-unanimated cumulative angle 0, storing target 20; a further
immediate call with raw hour 10 computes delta 0 and stores target
`0 + 0 = 0`.  The `cumulative_hour_angle` cell itself stays 0 throughout
(it never decreases), though the stored targets do decrease. -/
theorem second_call_target_amended :
    (set_angles (freshClock 300) 350 10 0).target_cumulative_hour = 350 ∧
    (set_angles (set_angles (freshClock 300) 350 10 0) 10 20 0).target_cumulative_hour = 20 ∧
    (set_angles (set_angles (set_angles (freshClock 300) 350 10 0) 10 20 0)
        10 20 0).target_cumulative_hour = 0 ∧
    (set_angles (freshClock 300) 350 10 0).cumulative_hour_angle = 0 ∧
    (set_angles (set_angles (freshClock 300) 350 10 0) 10 20 0).cumulative_hour_angle = 0 ∧
    (set_angles (set_angles (set_angles (freshClock 300) 350 10 0) 10 20 0)
        10 20 0).cumulative_hour_angle = 0 := by
  norm_num [set_angles, calculate_target_cumulative, freshClock, rustMod, ratTrunc]

/-! ### C3 — `set_angles_immediate` settles the clock -/

/-- Rest-position test as a propositional condition: the raw pair equals
the primary rest pair (135, 315) or the alternate rest pair (225, 225). -/
lemma rest_test_false_iff (hour minute : ℤ) :
    (!(hour == INACTIVE_HOUR_ANGLE && minute == INACTIVE_MINUTE_ANGLE
        || hour == ALT_INACTIVE_HOUR_ANGLE && minute == ALT_INACTIVE_MINUTE_ANGLE)) = false ↔
      (hour = 135 ∧ minute = 315) ∨ (hour = 225 ∧ minute = 225) := by
  simp [INACTIVE_HOUR_ANGLE, INACTIVE_MINUTE_ANGLE,
    ALT_INACTIVE_HOUR_ANGLE, ALT_INACTIVE_MINUTE_ANGLE]
  tauto

/-- C3: after `set_angles_immediate(h, m)`, regardless of prior state,
the clock is settled: both raw, cumulative and target angle cells hold
the raw angles, no animation is in flight, `is_active` equals
`target_is_active` and both come from the rest-position test, and a
subsequent `update_animation` step changes nothing. -/
theorem set_angles_immediate_settled (s : ClockState) (hour minute : ℤ) (t : ℕ) :
    (set_angles_immediate s hour minute).hour_angle = (hour : ℚ) ∧
    (set_angles_immediate s hour minute).cumulative_hour_angle = (hour : ℚ) ∧
    (set_angles_immediate s hour minute).target_cumulative_hour = (hour : ℚ) ∧
    (set_angles_immediate s hour minute).minute_angle = (minute : ℚ) ∧
    (set_angles_immediate s hour minute).cumulative_minute_angle = (minute : ℚ) ∧
    (set_angles_immediate s hour minute).target_cumulative_minute = (minute : ℚ) ∧
    (set_angles_immediate s hour minute).animation_start_time = none ∧
    (set_angles_immediate s hour minute).is_active
      = (set_angles_immediate s hour minute).target_is_active ∧
    ((set_angles_immediate s hour minute).is_active = false ↔
      (hour = 135 ∧ minute = 315) ∨ (hour = 225 ∧ minute = 225)) ∧
    update_animation (set_angles_immediate s hour minute) t = set_angles_immediate s hour minute := by
  refine ⟨rfl, rfl, rfl, rfl, rfl, rfl, rfl, rfl, rest_test_false_iff hour minute, ?_⟩
  simp [update_animation, set_angles_immediate]

/-! ### C4 — idempotent settle of `update_animation` -/

/-- C4: for a clock with an in-flight animation, an `update_animation`
tick at or after the end of the animation snaps both cumulative angles
to their exact targets, installs `target_is_active` as the current
active flag, clears the animation interval, and every further
`update_animation` call (at any time, with no intervening set call)
leaves the state literally unchanged. -/
theorem advance_settle_idempotent (s : ClockState) (st t t' : ℕ)
    (hs : s.animation_start_time = some st)
    (he : s.animation_duration_ms ≤ t - st) :
    (update_animation s t).cumulative_hour_angle = s.target_cumulative_hour ∧
    (update_animation s t).cumulative_minute_angle = s.target_cumulative_minute ∧
    (update_animation s t).is_active = s.target_is_active ∧
    (update_animation s t).animation_start_time = none ∧
    update_animation (update_animation s t) t' = update_animation s t := by
  have hnotlt : ¬ (((t - st : ℕ) : ℚ) < (s.animation_duration_ms : ℚ)) := by
    exact not_lt.2 (by exact_mod_cast he)
  have h1 : update_animation s t =
      { s with
        cumulative_hour_angle := s.target_cumulative_hour
        cumulative_minute_angle := s.target_cumulative_minute
        is_active := s.target_is_active
        animation_start_time := none } := by
    unfold update_animation
    rw [hs]
    simp only [hnotlt, if_false, reduceIte]
  rw [h1]
  exact ⟨rfl, rfl, rfl, rfl, rfl⟩

/-- C4 (witness): a fresh clock given one `set_angles(90, 180)` call at
time 0 and ticked at time 300 (the full default duration) settles, and a
tick at time 400 changes nothing. -/
theorem advance_settle_idempotent_witness :
    (update_animation (set_angles (freshClock 300) 90 180 0) 300).cumulative_hour_angle
      = (set_angles (freshClock 300) 90 180 0).target_cumulative_hour ∧
    (update_animation (set_angles (freshClock 300) 90 180 0) 300).cumulative_minute_angle
      = (set_angles (freshClock 300) 90 180 0).target_cumulative_minute ∧
    (update_animation (set_angles (freshClock 300) 90 180 0) 300).is_active
      = (set_angles (freshClock 300) 90 180 0).target_is_active ∧
    (update_animation (set_angles (freshClock 300) 90 180 0) 300).animation_start_time = none ∧
    update_animation (update_animation (set_angles (freshClock 300) 90 180 0) 300) 400
      = update_animation (set_angles (freshClock 300) 90 180 0) 300 :=
  advance_settle_idempotent (set_angles (freshClock 300) 90 180 0) 0 300 400 rfl (by decide)

/-! ### C5 — zero animation duration resolves on the first advance -/

/-- C5: every modelled core operation is a total function, and in the
degenerate configuration `animation_duration_ms = 0` the first
`update_animation` tick after a `set_angles` call (at any tick time)
takes the guarded `elapsed >= duration` branch — never the interpolation
branch, so no division by zero occurs — snapping the clock to its
targets, clearing the interval, and leaving every later tick a no-op. -/
theorem zero_duration_settles (s : ClockState) (hour minute : ℤ) (t t' : ℕ)
    (hd : s.animation_duration_ms = 0) :
    (update_animation (set_angles s hour minute t) t').animation_start_time = none ∧
    (update_animation (set_angles s hour minute t) t').cumulative_hour_angle
      = (set_angles s hour minute t).target_cumulative_hour ∧
    (update_animation (set_angles s hour minute t) t').cumulative_minute_angle
      = (set_angles s hour minute t).target_cumulative_minute ∧
    (update_animation (set_angles s hour minute t) t').is_active
      = (set_angles s hour minute t).target_is_active ∧
    update_animation (update_animation (set_angles s hour minute t) t') t'
      = update_animation (set_angles s hour minute t) t' := by
  have hstart : (set_angles s hour minute t).animation_start_time = some t := rfl
  have hdur : (set_angles s hour minute t).animation_duration_ms = 0 := hd
  have h := advance_settle_idempotent (set_angles s hour minute t) t t' t' hstart
    (by rw [hdur]; exact Nat.zero_le _)
  exact ⟨h.2.2.2.1, h.1, h.2.1, h.2.2.1, h.2.2.2.2⟩

/-- C5 (witness): a clock constructed with duration 0, set at time 5 and
ticked at time 5, resolves immediately to the settled state. -/
theorem zero_duration_settles_witness :
    (update_animation (set_angles (freshClock 0) 90 180 5) 5).animation_start_time = none ∧
    (update_animation (set_angles (freshClock 0) 90 180 5) 5).cumulative_hour_angle
      = (set_angles (freshClock 0) 90 180 5).target_cumulative_hour ∧
    (update_animation (set_angles (freshClock 0) 90 180 5) 5).cumulative_minute_angle
      = (set_angles (freshClock 0) 90 180 5).target_cumulative_minute ∧
    (update_animation (set_angles (freshClock 0) 90 180 5) 5).is_active
      = (set_angles (freshClock 0) 90 180 5).target_is_active ∧
    update_animation (update_animation (set_angles (freshClock 0) 90 180 5) 5) 5
      = update_animation (set_angles (freshClock 0) 90 180 5) 5 :=
  zero_duration_settles (freshClock 0) 90 180 5 5 rfl

/-! ### C6 — properties of the easing curve -/

/-- The easing curve is monotone non-decreasing on [0, 1]. -/
lemma ease_in_out_mono_aux (a b : ℚ) (ha : 0 ≤ a) (hab : a ≤ b) (hb : b ≤ 1) :
    ease_in_out a ≤ ease_in_out b := by
  unfold ease_in_out
  rcases lt_or_le a (1/2) with ha2 | ha2 <;> rcases lt_or_le b (1/2) with hb2 | hb2
  · rw [if_pos ha2, if_pos hb2]
    nlinarith [mul_nonneg (sub_nonneg.2 hab) (show (0 : ℚ) ≤ a + b by linarith)]
  · rw [if_pos ha2, if_neg (not_lt.2 hb2)]
    nlinarith [mul_nonneg (sub_nonneg.2 hb2) (sub_nonneg.2 hb),
      mul_nonneg ha (sub_nonneg.2 ha2.le)]
  · exact absurd (lt_of_le_of_lt (ha2.trans hab) hb2) (lt_irrefl _)
  · rw [if_neg (not_lt.2 ha2), if_neg (not_lt.2 hb2)]
    nlinarith [mul_nonneg (sub_nonneg.2 hab) (show (0 : ℚ) ≤ 2 - (a + b) by linarith)]

/-- The easing curve maps [0, 1] into [0, 1]. -/
lemma ease_in_out_mem_aux (t : ℚ) (h0 : 0 ≤ t) (h1 : t ≤ 1) :
    0 ≤ ease_in_out t ∧ ease_in_out t ≤ 1 := by
  have hz : ease_in_out 0 = 0 := by norm_num [ease_in_out]
  have ho : ease_in_out 1 = 1 := by norm_num [ease_in_out]
  constructor
  · calc (0 : ℚ) = ease_in_out 0 := hz.symm
      _ ≤ ease_in_out t := ease_in_out_mono_aux 0 t le_rfl h0 h1
  · calc ease_in_out t ≤ ease_in_out 1 := ease_in_out_mono_aux t 1 h0 h1 le_rfl
      _ = 1 := ho

/-- C6: the easing function fixes 0, 1 and the exact midpoint 1/2, is
monotone non-decreasing on [0, 1], and is symmetric about t = 1/2. -/
theorem ease_in_out_spec :
    ease_in_out 0 = 0 ∧ ease_in_out 1 = 1 ∧ ease_in_out (1/2) = 1/2 ∧
    (∀ a b : ℚ, 0 ≤ a → a ≤ b → b ≤ 1 → ease_in_out a ≤ ease_in_out b) ∧
    (∀ t : ℚ, 0 ≤ t → t ≤ 1 → ease_in_out (1 - t) = 1 - ease_in_out t) := by
  refine ⟨by norm_num [ease_in_out], by norm_num [ease_in_out], by norm_num [ease_in_out],
    ease_in_out_mono_aux, ?_⟩
  intro t ht0 ht1
  unfold ease_in_out
  rcases lt_trichotomy t (1/2) with h | h | h
  · rw [if_pos h, if_neg (by linarith : ¬ (1 - t < 1/2))]
    ring
  · rw [h]
    norm_num
  · rw [if_neg (by linarith : ¬ t < 1/2), if_pos (by linarith : 1 - t < 1/2)]
    ring

/-- C6 (witness): the monotonicity and symmetry parts applied at the
concrete points 1/4 and 3/4. -/
theorem ease_in_out_spec_witness :
    ease_in_out (1/4) ≤ ease_in_out (3/4) ∧
    ease_in_out (1 - 1/4) = 1 - ease_in_out (1/4) :=
  ⟨ease_in_out_spec.2.2.2.1 (1/4) (3/4) (by norm_num) (by norm_num) (by norm_num),
    ease_in_out_spec.2.2.2.2 (1/4) (by norm_num) (by norm_num)⟩

/-! ### C7 — the rest-position test drives the activity targets -/

/-- C7: `set_angles` sets `target_is_active` to `false` exactly when the
raw pair is one of the two rest pairs (135, 315) or (225, 225), and
`set_angles_immediate` sets both `is_active` and `target_is_active` by
the same test on its raw input. -/
theorem target_is_active_rest_test (s : ClockState) (hour minute : ℤ) (now : ℕ) :
    ((set_angles s hour minute now).target_is_active = false ↔
      (hour = 135 ∧ minute = 315) ∨ (hour = 225 ∧ minute = 225)) ∧
    (set_angles_immediate s hour minute).is_active
      = (set_angles_immediate s hour minute).target_is_active ∧
    ((set_angles_immediate s hour minute).is_active = false ↔
      (hour = 135 ∧ minute = 315) ∨ (hour = 225 ∧ minute = 225)) ∧
    ((set_angles_immediate s hour minute).target_is_active = false ↔
      (hour = 135 ∧ minute = 315) ∨ (hour = 225 ∧ minute = 225)) :=
  ⟨rest_test_false_iff hour minute, rfl,
    rest_test_false_iff hour minute, rest_test_false_iff hour minute⟩

/-! ### C9 — `set_angles` always animates and never touches `is_active` -/

/-- C9: every `set_angles` call unconditionally records a fresh animation
start (even if the target equals the current angle) and leaves the
current `is_active` flag alone; an `update_animation` tick either leaves
`is_active` unchanged or — only when it completes and clears the
interval — installs `target_is_active`. -/
theorem set_angles_always_animates (s : ClockState) (hour minute : ℤ) (t t' : ℕ) :
    (set_angles s hour minute t).animation_start_time = some t ∧
    (set_angles s hour minute t).is_active = s.is_active ∧
    ((update_animation s t').is_active = s.is_active ∨
      ((update_animation s t').is_active = s.target_is_active ∧
        (update_animation s t').animation_start_time = none)) := by
  refine ⟨rfl, rfl, ?_⟩
  unfold update_animation
  rcases s.animation_start_time with _ | st
  · exact Or.inl rfl
  · by_cases hlt : (((t' - st : ℕ) : ℚ) < (s.animation_duration_ms : ℚ))
    · exact Or.inl (by simp only [hlt, reduceIte])
    · exact Or.inr ⟨by simp only [hlt, reduceIte], by simp only [hlt, reduceIte]⟩

/-! ### C8 — completeness of the digit pattern table -/

/-- Patterns past digit 9 fall through the wildcard arm to `DIGIT_0`. -/
lemma get_digit_pattern_ge_ten (k : ℕ) : get_digit_pattern (k + 10) = DIGIT_0 := rfl

/-- C8: for every input `d` (the whole `u8` range and beyond), the
returned pattern has exactly 6 rows of 4 entries — 24 entries in all —
with every hour and minute angle in [0, 360); and every `d` outside 0–9
yields the pattern for digit 0. -/
theorem digit_pattern_complete (d : ℕ) :
    patternOK (get_digit_pattern d) ∧
    (get_digit_pattern d).flatten.length = 24 ∧
    (10 ≤ d → get_digit_pattern d = DIGIT_0) := by
  by_cases h10 : d < 10
  · interval_cases d <;>
      exact ⟨by decide, by decide, fun h => absurd h (by norm_num)⟩
  · obtain ⟨k, rfl⟩ : ∃ k, d = k + 10 := ⟨d - 10, by omega⟩
    rw [get_digit_pattern_ge_ten]
    exact ⟨by decide, by decide, fun _ => rfl⟩

/-- C8 (witness): the out-of-range input 99 (a valid `u8`) yields the
complete pattern for digit 0. -/
theorem digit_pattern_complete_witness :
    patternOK (get_digit_pattern 99) ∧ get_digit_pattern 99 = DIGIT_0 :=
  ⟨(digit_pattern_complete 99).1, (digit_pattern_complete 99).2.2 (by norm_num)⟩

/-! ### C10 — cross-fade interpolation bounds in `draw` -/

/-- The draw code's "from" pair during a cross-fade: the hand colour and
center-dot opacity of the outgoing state, chosen by `target_is_active`
exactly as in the two interpolation blocks of `AnalogClock::draw`. -/
def crossfadeFrom (s : ClockState) : (ℚ × ℚ × ℚ × ℚ) × ℚ :=
  if s.target_is_active then (s.colors.inactive_color, CENTER_DOT_OPACITY_INACTIVE)
  else (s.colors.active_color, CENTER_DOT_OPACITY_ACTIVE)

/-- The draw code's "to" pair during a cross-fade: the hand colour and
center-dot opacity of the incoming state. -/
def crossfadeTo (s : ClockState) : (ℚ × ℚ × ℚ × ℚ) × ℚ :=
  if s.target_is_active then (s.colors.active_color, CENTER_DOT_OPACITY_ACTIVE)
  else (s.colors.inactive_color, CENTER_DOT_OPACITY_INACTIVE)

/-- The eased clamped progress used by both interpolation blocks of
`draw` at time `now` for an animation started at `st`. -/
def crossfadeEased (s : ClockState) (st now : ℕ) : ℚ :=
  ease_in_out (clampedProgress ((now - st : ℕ) : ℚ) (s.animation_duration_ms : ℚ))

/-- A value lies (inclusively) between two endpoints. -/
def inBetween (a b v : ℚ) : Prop := min a b ≤ v ∧ v ≤ max a b

/-- Componentwise `inBetween` on RGBA quadruples. -/
def inBetween4 (a b v : ℚ × ℚ × ℚ × ℚ) : Prop :=
  inBetween a.1 b.1 v.1 ∧ inBetween a.2.1 b.2.1 v.2.1 ∧
  inBetween a.2.2.1 b.2.2.1 v.2.2.1 ∧ inBetween a.2.2.2 b.2.2.2 v.2.2.2

/-- Linear interpolation with a coefficient in [0, 1] stays between its
endpoints. -/
lemma lerp_mem_aux (a b e : ℚ) (h0 : 0 ≤ e) (h1 : e ≤ 1) : inBetween a b (lerp a b e) := by
  unfold inBetween lerp
  rcases le_total a b with h | h
  · rw [min_eq_left h, max_eq_right h]
    constructor <;> nlinarith
  · rw [min_eq_right h, max_eq_left h]
    constructor <;> nlinarith

/-- The clamped progress of `draw` lies in [0, 1] whenever elapsed time
and duration are nonnegative (including the degenerate zero duration). -/
lemma clampedProgress_mem_aux (elapsed duration : ℚ) (h0 : 0 ≤ elapsed) (hd : 0 ≤ duration) :
    0 ≤ clampedProgress elapsed duration ∧ clampedProgress elapsed duration ≤ 1 := by
  unfold clampedProgress
  by_cases h : duration = 0
  · rw [if_pos h]
    norm_num
  · rw [if_neg h]
    exact ⟨le_min (div_nonneg h0 hd) zero_le_one, min_le_right _ _⟩

/-- C10: while an animation is in flight and `is_active` differs from
`target_is_active`, `draw` interpolates all four hand-colour channels and
the center-dot opacity with the one shared eased progress value (whose
raw progress is clamped by `min(progress, 1.0)`); at clamped progress 0
the interpolants equal the "from" state exactly, at clamped progress 1
they equal the "to" state exactly, and they always lie between the two
endpoint states componentwise. -/
theorem crossfade_bounds (s : ClockState) (st now : ℕ)
    (hs : s.animation_start_time = some st)
    (hm : s.is_active ≠ s.target_is_active) :
    hand_color s now = lerp4 (crossfadeFrom s).1 (crossfadeTo s).1 (crossfadeEased s st now) ∧
    center_opacity s now = lerp (crossfadeFrom s).2 (crossfadeTo s).2 (crossfadeEased s st now) ∧
    (clampedProgress ((now - st : ℕ) : ℚ) (s.animation_duration_ms : ℚ) = 0 →
      hand_color s now = (crossfadeFrom s).1 ∧ center_opacity s now = (crossfadeFrom s).2) ∧
    (clampedProgress ((now - st : ℕ) : ℚ) (s.animation_duration_ms : ℚ) = 1 →
      hand_color s now = (crossfadeTo s).1 ∧ center_opacity s now = (crossfadeTo s).2) ∧
    inBetween4 (crossfadeFrom s).1 (crossfadeTo s).1 (hand_color s now) ∧
    inBetween (crossfadeFrom s).2 (crossfadeTo s).2 (center_opacity s now) := by
  have hp := clampedProgress_mem_aux ((now - st : ℕ) : ℚ) (s.animation_duration_ms : ℚ)
    (Nat.cast_nonneg _) (Nat.cast_nonneg _)
  have he : 0 ≤ crossfadeEased s st now ∧ crossfadeEased s st now ≤ 1 :=
    ease_in_out_mem_aux _ hp.1 hp.2
  have hc : hand_color s now
      = lerp4 (crossfadeFrom s).1 (crossfadeTo s).1 (crossfadeEased s st now) := by
    unfold hand_color crossfadeFrom crossfadeTo crossfadeEased
    rw [hs]
    cases hti : s.target_is_active
    · have hia : s.is_active = true := by
        cases hia2 : s.is_active
        · exact absurd (hia2.trans hti.symm) hm
        · rfl
      simp [hia, hti]
    · have hia : s.is_active = false := by
        cases hia2 : s.is_active
        · rfl
        · exact absurd (hia2.trans hti.symm) hm
      simp [hia, hti]
  have ho : center_opacity s now
      = lerp (crossfadeFrom s).2 (crossfadeTo s).2 (crossfadeEased s st now) := by
    unfold center_opacity crossfadeFrom crossfadeTo crossfadeEased
    rw [hs]
    cases hti : s.target_is_active
    · have hia : s.is_active = true := by
        cases hia2 : s.is_active
        · exact absurd (hia2.trans hti.symm) hm
        · rfl
      simp [hia, hti]
    · have hia : s.is_active = false := by
        cases hia2 : s.is_active
        · rfl
        · exact absurd (hia2.trans hti.symm) hm
      simp [hia, hti]
  have hz : ease_in_out (0 : ℚ) = 0 := by norm_num [ease_in_out]
  have ho1 : ease_in_out (1 : ℚ) = 1 := by norm_num [ease_in_out]
  refine ⟨hc, ho, ?_, ?_, ?_, ?_⟩
  · intro hp0
    have he0 : crossfadeEased s st now = 0 := by
      unfold crossfadeEased
      rw [hp0, hz]
    rw [hc, ho, he0]
    constructor
    · simp [lerp4, lerp]
    · simp [lerp]
  · intro hp1
    have he1 : crossfadeEased s st now = 1 := by
      unfold crossfadeEased
      rw [hp1, ho1]
    rw [hc, ho, he1]
    constructor
    · simp [lerp4, lerp, Prod.ext_iff]
    · simp [lerp]
  · rw [hc]
    exact ⟨lerp_mem_aux _ _ _ he.1 he.2, lerp_mem_aux _ _ _ he.1 he.2,
      lerp_mem_aux _ _ _ he.1 he.2, lerp_mem_aux _ _ _ he.1 he.2⟩
  · rw [ho]
    exact lerp_mem_aux _ _ _ he.1 he.2

/-- Concrete mid-cross-fade state: a fresh clock whose animation started
at time 0 and whose activity target has flipped to inactive. -/
def crossfadeDemoState : ClockState :=
  { freshClock 300 with animation_start_time := some 0, target_is_active := false }

/-- C10 (witness): the cross-fade theorem applied to the concrete
mid-transition state sampled at 150 ms. -/
theorem crossfade_bounds_witness :
    hand_color crossfadeDemoState 150
      = lerp4 (crossfadeFrom crossfadeDemoState).1 (crossfadeTo crossfadeDemoState).1
          (crossfadeEased crossfadeDemoState 0 150) ∧
    inBetween (crossfadeFrom crossfadeDemoState).2 (crossfadeTo crossfadeDemoState).2
      (center_opacity crossfadeDemoState 150) :=
  ⟨(crossfade_bounds crossfadeDemoState 0 150 rfl (by decide)).1,
    (crossfade_bounds crossfadeDemoState 0 150 rfl (by decide)).2.2.2.2.2⟩
